import Mathlib

/-!
Verification of `scripts/build_snomed_db.py`, a one-shot ETL routine
(`convert_to_sqlite`) that reads a tab-separated SNOMED description
snapshot, keeps the rows whose activity field (index 2) is the literal
string "1", and bulk-loads their projection (fields 0, 4, 7 and the
constant 1) into a freshly created SQLite database.

Shallow-embedding conventions, each translated from the script:

* `Row` is the list of fields that `csv.reader` with a tab delimiter
  produces for one line (an empty line yields `[]`).
* `SrcLine.readError` stands for a line whose read or decode fails while
  iterating the reader (an IO or decode failure surfacing mid-stream).
* Python indexing `row[i]` is `getField`: it fails with an IndexError
  when the index is out of range.
* SQLite semantics as used by the script (default isolation level of the
  `sqlite3` module): the DDL statements (CREATE TABLE / CREATE INDEX) run
  in autocommit mode, while the INSERTs issued by `executemany` run inside
  one implicit transaction that becomes durable only at `conn.commit()`.
  When the run aborts with an exception, `conn.commit()` is never reached
  and the pending transaction is rolled back when the connection is
  discarded, so the destination file keeps the schema but none of the
  inserted rows.  `DestFile.store s` stands for a file at the output path
  holding the `descriptions` table with its two indexes and the committed
  rows `s.rows`.
* The table is created with `id TEXT PRIMARY KEY`, so the rows enter the
  pending transaction one at a time in flush order, and the first row
  whose id equals the id of an already inserted row makes `executemany`
  raise `sqlite3.IntegrityError`, aborting the run like any other
  mid-stream exception (rollback, connection left open, no completion
  message).  `convertWith` detects this from the insertion order itself:
  `runLoop` returns, on a parse or read error, the state holding exactly
  the rows flushed in the iterations before the erroring line, so a
  duplicate id among `pendingInserts` means the real program had already
  aborted at that earlier flush with IntegrityError, which is therefore
  reported in preference to the later parse error; on a completed loop
  the full insertion sequence is `pendingInserts ++ batch` (the final
  partial batch is flushed before the commit), and a duplicate id in it
  aborts at the flush where the offending row is inserted, before
  `conn.commit()`.  `executedInserts` records the rows inserted into the
  pending transaction, i.e. the longest duplicate-free-by-id prefix of
  the insertion order reached before the abort (all of it on runs with
  no primary-key violation).
* The script opens the source inside a `with` block, so the source handle
  is closed on every exit from the block; the connection is closed only by
  the `conn.close()` call on the success path (there is no try/finally).
* The progress prints ("Processed ... rows...") are side effects with no
  semantic content and are not tracked; `printed` records the start,
  reading, error and completion messages.
* The two paths are process-wide constants in the script; the model takes
  the content found at those paths as arguments: `src : Option (List
  SrcLine)` is the file at `SNOMED_DESC_PATH` (`none` when it is missing)
  and `dest0 : DestFile` is the filesystem entry at `DB_OUTPUT_PATH`
  before the run.  `returned` is the Python return value of the function.
-/

/-- Source path constant of the script (`SNOMED_DESC_PATH`). -/
def SNOMED_DESC_PATH : String :=
  "public/uk_sct2cl_41.2.0_20251119000001Z/SnomedCT_InternationalRF2_PRODUCTION_20250801T120000Z/Snapshot/Terminology/sct2_Description_Snapshot-en_INT_20250801.txt"

/-- Destination path constant of the script (`DB_OUTPUT_PATH`). -/
def DB_OUTPUT_PATH : String := "assets/snomed.db"

/-- Batch threshold constant of the script (`BATCH_SIZE = 10000`). -/
def BATCH_SIZE : Nat := 10000

/-- One source line as the list of its tab-separated fields. -/
abbrev Row := List String

/-- A line of the source stream: either a decoded list of fields, or a
line whose read or decode fails when the reader reaches it. -/
inductive SrcLine where
  | ok (row : Row)
  | readError
  deriving DecidableEq

/-- A persisted row of the `descriptions` table. -/
structure DescRow where
  id : String
  conceptId : String
  term : String
  active : Nat
  deriving DecidableEq

/-- The committed contents of the destination database (the schema with
its two indexes is always present in a created store). -/
structure Store where
  rows : List DescRow
  deriving DecidableEq

/-- The filesystem entry at the destination path. -/
inductive DestFile where
  | absent
  | other (content : String)
  | store (s : Store)
  deriving DecidableEq

/-- Python exceptions the routine can raise. -/
inductive RunError where
  | indexError (i : Nat)
  | stopIteration
  | ioRead
  | integrityError
  deriving DecidableEq

/-- The mutable loop state of the reading loop: `count` accepted rows so
far, the current `batch`, and `pendingInserts`, the rows already passed to
`executemany` inside the (uncommitted) implicit transaction. -/
structure LoopState where
  count : Nat
  batch : List DescRow
  pendingInserts : List DescRow
  deriving DecidableEq

/-- Observable outcome of one invocation of `convert_to_sqlite`. -/
structure RunResult where
  dest : DestFile
  printed : List String
  returned : Option Nat
  error : Option RunError
  executedInserts : List DescRow
  fileOpened : Bool
  fileClosed : Bool
  connOpened : Bool
  connClosed : Bool
  deriving DecidableEq

/-- Python list indexing `row[i]`: IndexError when out of range. -/
def getField (row : Row) (i : Nat) : Except RunError String :=
  match row[i]? with
  | some s => Except.ok s
  | none => Except.error (RunError.indexError i)

/-- Threshold check run at the end of every loop iteration: when the
batch has reached the threshold, pass it to `executemany` (append it to
the pending transaction) and clear it. -/
def flushIfFull (bs : Nat) (st : LoopState) : LoopState :=
  if bs ≤ st.batch.length then
    { st with
      pendingInserts := st.pendingInserts ++ st.batch,
      batch := [] }
  else st

/-- Body of the reading loop for one data line, translated from the
script: read `row[2]`; when it equals "1", build the projected tuple
`(row[0], row[4], row[7], 1)` — reading fields 0, 4, 7 in that order —
append it to the batch and bump the count; then run the threshold check.
The match priority mirrors which IndexError Python raises first. -/
def processLine (bs : Nat) (st : LoopState) (row : Row) :
    Except RunError LoopState :=
  match getField row 2 with
  | Except.error e => Except.error e
  | Except.ok active =>
    if active = "1" then
      match getField row 0, getField row 4, getField row 7 with
      | Except.ok f0, Except.ok f4, Except.ok f7 =>
        Except.ok (flushIfFull bs { st with
          batch := st.batch ++ [⟨f0, f4, f7, 1⟩],
          count := st.count + 1 })
      | Except.error e, _, _ => Except.error e
      | _, Except.error e, _ => Except.error e
      | _, _, Except.error e => Except.error e
    else
      Except.ok (flushIfFull bs st)

/-- The reading loop over the data lines; it stops at the first line that
raises, returning the state reached before that line together with the
error. -/
def runLoop (bs : Nat) : LoopState → List SrcLine → LoopState × Option RunError
  | st, [] => (st, none)
  | st, SrcLine.readError :: _ => (st, some RunError.ioRead)
  | st, SrcLine.ok row :: rest =>
    match processLine bs st row with
    | Except.error e => (st, some e)
    | Except.ok st1 => runLoop bs st1 rest

/-- Initial loop state (`count = 0`, empty batch, nothing executed). -/
def initState : LoopState := { count := 0, batch := [], pendingInserts := [] }

/-- A created destination database before any committed insert: the
schema and its two indexes only. -/
def emptyStore : Store := { rows := [] }

/-- Message printed when the source file is missing. -/
def sourceNotFoundMsg : String :=
  "Error: Source file not found at " ++ SNOMED_DESC_PATH

/-- Message printed before the destination database is created. -/
def creatingMsg : String :=
  "Creating SQLite DB at " ++ DB_OUTPUT_PATH ++ "..."

/-- Message printed before the source file is read. -/
def readingMsg : String := "Reading SNOMED file..."

/-- Completion message carrying the accepted-record total. -/
def doneMsg (count : Nat) : String :=
  "Done! Imported " ++ toString count ++ " active descriptions to "
    ++ DB_OUTPUT_PATH

/-- Whether a sequence of rows contains two rows with the same id: the
condition under which inserting the sequence into the descriptions
table, whose id column is the TEXT PRIMARY KEY, raises
sqlite3.IntegrityError at the first offending row. -/
def hasDupId : List DescRow → Bool
  | [] => false
  | d :: rest => rest.any (fun r => decide (r.id = d.id)) || hasDupId rest

/-- The rows actually inserted into the pending transaction before the
first primary-key violation: the longest prefix of the insertion order
whose ids are pairwise distinct (the whole sequence when there is no
violation). -/
def distinctPrefix (acc : List DescRow) : List DescRow → List DescRow
  | [] => acc
  | d :: rest =>
    if acc.any (fun r => decide (r.id = d.id)) then acc
    else distinctPrefix (acc ++ [d]) rest

/-- The whole routine, parameterized by the batch threshold (the script
fixes it to `BATCH_SIZE`): missing-source early return; otherwise delete
any pre-existing destination, create the store with its schema (DDL,
autocommitted), skip the header with `next(reader)` (StopIteration on an
empty file), run the reading loop, flush the remaining partial batch,
commit and close.  A duplicate id among the rows reaching the pending
transaction violates the id TEXT PRIMARY KEY and raises
sqlite3.IntegrityError at the flush inserting the offending row: when
the loop stopped at a parse or read error, the rows flushed before that
line are `pendingInserts`, so a duplicate there means the
IntegrityError fired first; when the loop completed, the insertion
order is `pendingInserts ++ batch` and a duplicate aborts before the
commit.  On any abort the pending transaction is rolled back and the
connection is left unclosed. -/
def convertWith (bs : Nat) (src : Option (List SrcLine)) (dest0 : DestFile) :
    RunResult :=
  match src with
  | none =>
    { dest := dest0,
      printed := [sourceNotFoundMsg],
      returned := none,
      error := none,
      executedInserts := [],
      fileOpened := false, fileClosed := false,
      connOpened := false, connClosed := false }
  | some [] =>
    { dest := DestFile.store emptyStore,
      printed := [creatingMsg, readingMsg],
      returned := none,
      error := some RunError.stopIteration,
      executedInserts := [],
      fileOpened := true, fileClosed := true,
      connOpened := true, connClosed := false }
  | some (SrcLine.readError :: _) =>
    { dest := DestFile.store emptyStore,
      printed := [creatingMsg, readingMsg],
      returned := none,
      error := some RunError.ioRead,
      executedInserts := [],
      fileOpened := true, fileClosed := true,
      connOpened := true, connClosed := false }
  | some (SrcLine.ok _ :: dataLines) =>
    match runLoop bs initState dataLines with
    | (st, some e) =>
      if hasDupId st.pendingInserts then
        { dest := DestFile.store emptyStore,
          printed := [creatingMsg, readingMsg],
          returned := none,
          error := some RunError.integrityError,
          executedInserts := distinctPrefix [] st.pendingInserts,
          fileOpened := true, fileClosed := true,
          connOpened := true, connClosed := false }
      else
        { dest := DestFile.store emptyStore,
          printed := [creatingMsg, readingMsg],
          returned := none,
          error := some e,
          executedInserts := st.pendingInserts,
          fileOpened := true, fileClosed := true,
          connOpened := true, connClosed := false }
    | (st, none) =>
      if hasDupId (st.pendingInserts ++ st.batch) then
        { dest := DestFile.store emptyStore,
          printed := [creatingMsg, readingMsg],
          returned := none,
          error := some RunError.integrityError,
          executedInserts := distinctPrefix [] (st.pendingInserts ++ st.batch),
          fileOpened := true, fileClosed := true,
          connOpened := true, connClosed := false }
      else
        { dest := DestFile.store { rows := st.pendingInserts ++ st.batch },
          printed := [creatingMsg, readingMsg, doneMsg st.count],
          returned := none,
          error := none,
          executedInserts := st.pendingInserts ++ st.batch,
          fileOpened := true, fileClosed := true,
          connOpened := true, connClosed := true }

/-- The routine as the script runs it, with the fixed threshold. -/
def convert_to_sqlite (src : Option (List SrcLine)) (dest0 : DestFile) :
    RunResult :=
  convertWith BATCH_SIZE src dest0

/-- Rows committed at the destination after a run (empty when the
destination is not a store). -/
def RunResult.storeRows (r : RunResult) : List DescRow :=
  match r.dest with
  | DestFile.store s => s.rows
  | _ => []

/-- The projection a data line contributes when its activity field is
the string "1": fields 0, 4, 7 and the constant active value 1. -/
def acceptedRow : SrcLine → Option DescRow
  | SrcLine.ok row =>
    if row[2]? = some "1" then
      some { id := row.getD 0 "", conceptId := row.getD 4 "",
             term := row.getD 7 "", active := 1 }
    else none
  | SrcLine.readError => none

/-- Whether a source line carries the activity value "1" at index 2. -/
def srcActive : SrcLine → Bool
  | SrcLine.ok row => decide (row[2]? = some "1")
  | SrcLine.readError => false

/-- A line that conforms to the documented input format: it decodes and
has at least 8 tab-separated fields. -/
def wellFormedLine : SrcLine → Bool
  | SrcLine.ok row => decide (8 ≤ row.length)
  | SrcLine.readError => false

/-- A source that conforms to the documented input format: a readable
header line followed by data lines of at least 8 fields each. -/
def wellFormedSrc : List SrcLine → Bool
  | [] => false
  | SrcLine.readError :: _ => false
  | SrcLine.ok _ :: dataLines => dataLines.all wellFormedLine

/-- Concrete source: header plus three data lines with activity flags
"1", "0", "1". -/
def wRow1 : Row := ["d1", "t", "1", "m", "c1", "en", "ty", "term one", "cs"]

/-- Concrete inactive data line. -/
def wRow2 : Row := ["d2", "t", "0", "m", "c1", "en", "ty", "term two", "cs"]

/-- Concrete second active data line. -/
def wRow3 : Row := ["d3", "t", "1", "m", "c2", "en", "ty", "term three", "cs"]

/-- Concrete well-formed source used by the witnesses. -/
def wLinesA : List SrcLine :=
  [SrcLine.ok ["hdr0", "hdr1", "hdr2"], SrcLine.ok wRow1,
   SrcLine.ok wRow2, SrcLine.ok wRow3]

/-- Concrete source with five active data lines, for the batching
witness. -/
def wLinesB : List SrcLine :=
  [SrcLine.ok ["hdr"], SrcLine.ok wRow1, SrcLine.ok wRow3,
   SrcLine.ok ["d4", "t", "1", "m", "c3", "en", "ty", "term four", "cs"],
   SrcLine.ok ["d5", "t", "1", "m", "c3", "en", "ty", "term five", "cs"],
   SrcLine.ok ["d6", "t", "1", "m", "c4", "en", "ty", "term six", "cs"]]

/-- Concrete data line with only three fields and activity "0". -/
def shortInactive : Row := ["a", "b", "0"]

/-- Concrete data line with a single field. -/
def shortBad : Row := ["x"]

/-- Concrete source whose second data line fails to read, after one
active data line. -/
def wBadTail : List SrcLine :=
  [SrcLine.ok ["hdr"], SrcLine.ok wRow1, SrcLine.readError]

/-- Concrete well-formed source whose two accepted lines share the id
"d1". -/
def wDupLines : List SrcLine :=
  [SrcLine.ok ["hdr"],
   SrcLine.ok ["d1", "t", "1", "m", "c1", "en", "ty", "term one", "cs"],
   SrcLine.ok ["d1", "t", "1", "m", "c2", "en", "ty", "term two", "cs"]]

theorem getD_of_getElem? {row : Row} {i : Nat} {s : String}
    (h : row[i]? = some s) : row.getD i "" = s := by
  simp [List.getD_eq_getElem?_getD, h]

theorem flushIfFull_spec (bs : Nat) (st : LoopState) :
    (flushIfFull bs st).pendingInserts ++ (flushIfFull bs st).batch
        = st.pendingInserts ++ st.batch
    ∧ (flushIfFull bs st).count = st.count := by
  unfold flushIfFull
  split <;> simp

theorem getField_ok_iff (row : Row) (i : Nat) (s : String) :
    getField row i = Except.ok s ↔ row[i]? = some s := by
  unfold getField
  cases h : row[i]? <;> simp

theorem processLine_ok_spec (bs : Nat) (st st1 : LoopState) (row : Row)
    (h : processLine bs st row = Except.ok st1) :
    st1.pendingInserts ++ st1.batch
        = st.pendingInserts ++ st.batch ++ (acceptedRow (SrcLine.ok row)).toList
    ∧ st1.count = st.count + (acceptedRow (SrcLine.ok row)).toList.length := by
  unfold processLine at h
  split at h
  · simp at h
  · rename_i active hactive
    rw [getField_ok_iff] at hactive
    by_cases ha : active = "1"
    · rw [if_pos ha] at h
      subst ha
      split at h
      · rename_i f0 f4 f7 h0 h4 h7
        rw [getField_ok_iff] at h0 h4 h7
        have hacc : acceptedRow (SrcLine.ok row)
            = some { id := f0, conceptId := f4, term := f7, active := 1 } := by
          simp [acceptedRow, hactive, h0, h4, h7, List.getD_eq_getElem?_getD]
        rw [Except.ok.injEq] at h
        subst h
        rw [hacc]
        rw [(flushIfFull_spec bs _).1, (flushIfFull_spec bs _).2]
        simp
      · simp at h
      · simp at h
      · simp at h
    · rw [if_neg ha, Except.ok.injEq] at h
      have hacc : acceptedRow (SrcLine.ok row) = none := by
        simp [acceptedRow, hactive, ha]
      subst h
      rw [hacc]
      rw [(flushIfFull_spec bs st).1, (flushIfFull_spec bs st).2]
      simp

theorem filterMap_acceptedRow_cons (l : SrcLine) (rest : List SrcLine) :
    (l :: rest).filterMap acceptedRow
      = (acceptedRow l).toList ++ rest.filterMap acceptedRow := by
  cases hl : acceptedRow l <;> simp [List.filterMap_cons, hl]

theorem runLoop_ok_spec (bs : Nat) (lines : List SrcLine) :
    ∀ (st st' : LoopState), runLoop bs st lines = (st', none) →
    st'.pendingInserts ++ st'.batch
        = st.pendingInserts ++ st.batch ++ lines.filterMap acceptedRow
    ∧ st'.count = st.count + (lines.filterMap acceptedRow).length := by
  induction lines with
  | nil =>
    intro st st' h
    simp only [runLoop, Prod.mk.injEq] at h
    rw [h.1]
    simp
  | cons l rest ih =>
    intro st st' h
    cases l with
    | readError => simp [runLoop] at h
    | ok row =>
      simp only [runLoop] at h
      cases hp : processLine bs st row with
      | error e => rw [hp] at h; simp at h
      | ok st1 =>
        rw [hp] at h
        obtain ⟨ih1, ih2⟩ := ih st1 st' h
        obtain ⟨p1, p2⟩ := processLine_ok_spec bs st st1 row hp
        rw [filterMap_acceptedRow_cons]
        constructor
        · rw [ih1, p1]
          simp [List.append_assoc]
        · rw [ih2, p2]
          simp [List.length_append]
          omega

theorem convertWith_ok_spec (bs : Nat) (lines : List SrcLine) (d0 : DestFile)
    (h : (convertWith bs (some lines) d0).error = none) :
    (convertWith bs (some lines) d0).storeRows = lines.tail.filterMap acceptedRow
    ∧ (convertWith bs (some lines) d0).printed
        = [creatingMsg, readingMsg,
           doneMsg (lines.tail.filterMap acceptedRow).length]
    ∧ (convertWith bs (some lines) d0).returned = none
    ∧ (convertWith bs (some lines) d0).connClosed = true := by
  cases lines with
  | nil => simp [convertWith] at h
  | cons hd tl =>
    cases hd with
    | readError => simp [convertWith] at h
    | ok row =>
      rcases hrl : runLoop bs initState tl with ⟨st, oe⟩
      cases oe with
      | some e =>
        cases hdup : hasDupId st.pendingInserts <;>
          simp [convertWith, hrl, hdup] at h
      | none =>
        cases hdup : hasDupId (st.pendingInserts ++ st.batch) with
        | true => simp [convertWith, hrl, hdup] at h
        | false =>
          obtain ⟨h1, h2⟩ := runLoop_ok_spec bs tl initState st hrl
          simp only [initState, List.nil_append] at h1 h2
          rw [h1] at hdup
          simp [convertWith, hrl, hdup, RunResult.storeRows, h1, h2]

theorem acceptedRow_isSome_iff (l : SrcLine) :
    (acceptedRow l).isSome = srcActive l := by
  cases l with
  | readError => rfl
  | ok row =>
    by_cases h : row[2]? = some "1" <;> simp [acceptedRow, srcActive, h]

theorem length_filterMap_acceptedRow (ls : List SrcLine) :
    (ls.filterMap acceptedRow).length = (ls.filter srcActive).length := by
  induction ls with
  | nil => rfl
  | cons l rest ih =>
    have hiff := acceptedRow_isSome_iff l
    cases hl : acceptedRow l <;> rw [hl] at hiff <;>
      simp only [Option.isSome] at hiff <;>
      simp [List.filterMap_cons, List.filter_cons, hl, ← hiff, ih]

theorem getField_error_iff (row : Row) (i : Nat) (e : RunError) :
    getField row i = Except.error e
      ↔ (row.length ≤ i ∧ e = RunError.indexError i) := by
  unfold getField
  cases h : row[i]? with
  | none =>
    have hlen := List.getElem?_eq_none_iff.mp h
    simp [hlen, eq_comm]
  | some s =>
    have hlt : i < row.length := (List.getElem?_eq_some_iff.mp h).1
    simp
    omega

theorem processLine_error_iff (bs : Nat) (st : LoopState) (row : Row) :
    (∃ e, processLine bs st row = Except.error e)
      ↔ (row.length < 3 ∨ (row[2]? = some "1" ∧ row.length < 8)) := by
  unfold processLine
  split
  · rename_i e' he'
    have hc := (getField_error_iff row 2 e').mp he'
    exact iff_of_true ⟨e', rfl⟩ (Or.inl (by omega))
  · rename_i a ha
    rw [getField_ok_iff] at ha
    have hlt2 : 2 < row.length := (List.getElem?_eq_some_iff.mp ha).1
    by_cases h1 : a = "1"
    · subst h1
      rw [if_pos rfl]
      split

      · rename_i f0 f4 f7 h0 h4 h7
        have hlt7 : 7 < row.length :=
          (List.getElem?_eq_some_iff.mp ((getField_ok_iff row 7 f7).mp h7)).1
        refine iff_of_false (by simp) ?_
        simp [ha]
        omega
      · rename_i e' hx
        refine iff_of_true ⟨e', rfl⟩ (Or.inr ⟨ha, ?_⟩)
        have hc := (getField_error_iff row 0 e').mp hx
        omega
      · rename_i e' hx hn0
        refine iff_of_true ⟨e', rfl⟩ (Or.inr ⟨ha, ?_⟩)
        have hc := (getField_error_iff row 4 e').mp hx
        omega
      · rename_i e' hx hn0 hn4
        refine iff_of_true ⟨e', rfl⟩ (Or.inr ⟨ha, ?_⟩)
        have hc := (getField_error_iff row 7 e').mp hx
        omega
    · rw [if_neg h1]
      refine iff_of_false (by simp) ?_
      rintro (hlen | ⟨hact, -⟩)
      · omega
      · rw [ha, Option.some.injEq] at hact
        exact h1 hact

theorem processLine_ok_of_wellFormed (bs : Nat) (st : LoopState) (row : Row)
    (hw : 8 ≤ row.length) :
    ∃ st1, processLine bs st row = Except.ok st1 := by
  cases hp : processLine bs st row with
  | ok st1 => exact ⟨st1, rfl⟩
  | error e =>
    exfalso
    have hc := (processLine_error_iff bs st row).mp ⟨e, hp⟩
    rcases hc with hc | hc
    · omega
    · omega

theorem runLoop_ok_of_wellFormed (bs : Nat) (lines : List SrcLine)
    (hw : lines.all wellFormedLine = true) :
    ∀ st, ∃ st', runLoop bs st lines = (st', none) := by
  induction lines with
  | nil => intro st; exact ⟨st, rfl⟩
  | cons l rest ih =>
    intro st
    simp only [List.all_cons, Bool.and_eq_true] at hw
    cases l with
    | readError => simp [wellFormedLine] at hw
    | ok row =>
      have hlen : 8 ≤ row.length := by
        have := hw.1
        simpa [wellFormedLine] using this
      obtain ⟨st1, hst1⟩ := processLine_ok_of_wellFormed bs st row hlen
      obtain ⟨st', hst'⟩ := ih hw.2 st1
      exact ⟨st', by simp [runLoop, hst1, hst']⟩

theorem convertWith_ok_of_wellFormed (bs : Nat) (lines : List SrcLine)
    (d0 : DestFile) (hw : wellFormedSrc lines = true)
    (hids : hasDupId (lines.tail.filterMap acceptedRow) = false) :
    (convertWith bs (some lines) d0).error = none := by
  cases lines with
  | nil => simp [wellFormedSrc] at hw
  | cons hd tl =>
    cases hd with
    | readError => simp [wellFormedSrc] at hw
    | ok row =>
      have hall : tl.all wellFormedLine = true := hw
      obtain ⟨st', hst'⟩ := runLoop_ok_of_wellFormed bs tl hall initState
      obtain ⟨h1, -⟩ := runLoop_ok_spec bs tl initState st' hst'
      simp only [initState, List.nil_append] at h1
      simp only [List.tail_cons] at hids
      rw [← h1] at hids
      simp [convertWith, hst', hids]

/-- C1 counterexample: a source whose data lines all have at least 8
fields, but whose two accepted lines share the id "d1", does not
complete with two rows: the id column is the TEXT PRIMARY KEY, so
inserting the second row raises sqlite3.IntegrityError and the run
aborts with a schema-only store of 0 rows, while 2 data lines carry
activity "1". -/
theorem active_row_count_matches_cex :
    wellFormedSrc wDupLines = true
    ∧ (convert_to_sqlite (some wDupLines) DestFile.absent).error
        = some RunError.integrityError
    ∧ (convert_to_sqlite (some wDupLines) DestFile.absent).storeRows = []
    ∧ (wDupLines.tail.filter srcActive).length = 2 := by
  decide

/-- C1 amended: for every source file conforming to the input format
whose accepted lines carry pairwise distinct ids, the run completes and
the number of rows in the descriptions table equals the number of data
lines (every line after the discarded header) whose field at index 2 is
exactly "1"; lines with any other activity value contribute no row, and
the header line never contributes, whatever its content. -/
theorem active_row_count_matches (lines : List SrcLine) (d0 : DestFile)
    (hd1 hd2 : Row) (hw : wellFormedSrc lines = true)
    (hids : hasDupId (lines.tail.filterMap acceptedRow) = false) :
    (convert_to_sqlite (some lines) d0).error = none
    ∧ (convert_to_sqlite (some lines) d0).storeRows.length
        = (lines.tail.filter srcActive).length
    ∧ (convert_to_sqlite (some (SrcLine.ok hd1 :: lines.tail)) d0).storeRows
        = (convert_to_sqlite (some (SrcLine.ok hd2 :: lines.tail)) d0).storeRows := by
  have he : (convertWith BATCH_SIZE (some lines) d0).error = none :=
    convertWith_ok_of_wellFormed BATCH_SIZE lines d0 hw hids
  refine ⟨he, ?_, rfl⟩
  obtain ⟨h1, -, -, -⟩ := convertWith_ok_spec BATCH_SIZE lines d0 he
  show (convertWith BATCH_SIZE (some lines) d0).storeRows.length = _
  rw [h1, length_filterMap_acceptedRow]

theorem active_row_count_matches_witness :
    wellFormedSrc wLinesA = true
    ∧ hasDupId (wLinesA.tail.filterMap acceptedRow) = false
    ∧ (convert_to_sqlite (some wLinesA) DestFile.absent).error = none
    ∧ (convert_to_sqlite (some wLinesA) DestFile.absent).storeRows.length
        = (wLinesA.tail.filter srcActive).length :=
  ⟨by decide, by decide,
   (active_row_count_matches wLinesA DestFile.absent [] []
     (by decide) (by decide)).1,
   (active_row_count_matches wLinesA DestFile.absent [] []
     (by decide) (by decide)).2.1⟩

/-- C2: on a run that completes without error, every accepted data line
(one whose field at index 2 equals "1") has a persisted row whose id is
the line's field 0, whose conceptId is field 4, whose term is field 7,
and whose active value is the constant 1. -/
theorem accepted_rows_projected (lines : List SrcLine) (d0 : DestFile)
    (row : Row)
    (h : (convert_to_sqlite (some lines) d0).error = none)
    (hmem : SrcLine.ok row ∈ lines.tail)
    (hact : row[2]? = some "1") :
    ∃ d, d ∈ (convert_to_sqlite (some lines) d0).storeRows
      ∧ d.id = row.getD 0 "" ∧ d.conceptId = row.getD 4 ""
      ∧ d.term = row.getD 7 "" ∧ d.active = 1 := by
  obtain ⟨h1, -, -, -⟩ := convertWith_ok_spec BATCH_SIZE lines d0 h
  refine ⟨⟨row.getD 0 "", row.getD 4 "", row.getD 7 "", 1⟩, ?_, rfl, rfl, rfl, rfl⟩
  show _ ∈ (convertWith BATCH_SIZE (some lines) d0).storeRows
  rw [h1]
  exact List.mem_filterMap.mpr ⟨SrcLine.ok row, hmem, by simp [acceptedRow, hact]⟩

theorem accepted_rows_projected_witness :
    ∃ d, d ∈ (convert_to_sqlite (some wLinesA) DestFile.absent).storeRows
      ∧ d.id = wRow1.getD 0 "" ∧ d.conceptId = wRow1.getD 4 ""
      ∧ d.term = wRow1.getD 7 "" ∧ d.active = 1 :=
  accepted_rows_projected wLinesA DestFile.absent wRow1
    (by decide) (by decide) (by decide)

/-- C4: when the source path does not exist, the run returns immediately:
the destination is exactly what it was before, nothing was opened or
created, the missing-source condition is reported on the console, and no
exception escapes to the caller. -/
theorem missing_source_untouched (d0 : DestFile) :
    (convert_to_sqlite none d0).dest = d0
    ∧ (convert_to_sqlite none d0).printed = [sourceNotFoundMsg]
    ∧ (convert_to_sqlite none d0).error = none
    ∧ (convert_to_sqlite none d0).connOpened = false
    ∧ (convert_to_sqlite none d0).fileOpened = false :=
  ⟨rfl, rfl, rfl, rfl, rfl⟩

/-- C10: a source file that exists but has no lines at all makes the
header skip raise StopIteration, so the import aborts instead of
completing with a count of 0; by then any pre-existing destination has
already been deleted and replaced by a freshly created schema-only
store, and no completion message is printed. -/
theorem empty_source_aborts (d0 : DestFile) :
    (convert_to_sqlite (some []) d0).error = some RunError.stopIteration
    ∧ (convert_to_sqlite (some []) d0).dest = DestFile.store emptyStore
    ∧ (convert_to_sqlite (some []) d0).storeRows = []
    ∧ (convert_to_sqlite (some []) d0).printed = [creatingMsg, readingMsg] :=
  ⟨rfl, rfl, rfl, rfl⟩

/-- C3 counterexample: a run over a well-formed source completes, commits
two accepted records and closes the store, yet the function returns no
value at all - its Python body only prints the total - so its result is
not the record count the contract promises. -/
theorem import_returns_none_cex :
    (convert_to_sqlite (some wLinesA) DestFile.absent).error = none
    ∧ (convert_to_sqlite (some wLinesA) DestFile.absent).storeRows.length = 2
    ∧ (convert_to_sqlite (some wLinesA) DestFile.absent).connClosed = true
    ∧ (convert_to_sqlite (some wLinesA) DestFile.absent).returned = none
    ∧ (convert_to_sqlite (some wLinesA) DestFile.absent).returned
        ≠ some (convert_to_sqlite (some wLinesA) DestFile.absent).storeRows.length := by
  decide

/-- C3 amended: after committing all writes and closing the store,
the import reports the total count of accepted records in its
completion message, but returns None - not the count - to its caller. -/
theorem import_reports_count (lines : List SrcLine) (d0 : DestFile)
    (h : (convert_to_sqlite (some lines) d0).error = none) :
    (convert_to_sqlite (some lines) d0).connClosed = true
    ∧ (convert_to_sqlite (some lines) d0).printed
        = [creatingMsg, readingMsg,
           doneMsg (lines.tail.filter srcActive).length]
    ∧ (convert_to_sqlite (some lines) d0).returned = none := by
  obtain ⟨-, h2, h3, h4⟩ := convertWith_ok_spec BATCH_SIZE lines d0 h
  refine ⟨h4, ?_, h3⟩
  show (convertWith BATCH_SIZE (some lines) d0).printed = _
  rw [h2, length_filterMap_acceptedRow]

theorem import_reports_count_witness :
    (convert_to_sqlite (some wLinesA) DestFile.absent).printed
        = [creatingMsg, readingMsg,
           doneMsg (wLinesA.tail.filter srcActive).length] :=
  (import_reports_count wLinesA DestFile.absent (by decide)).2.1

/-- C5 counterexample: a data line with only three tab-separated fields
whose activity field is "0" does not abort the run - the script reads
fields 0, 4 and 7 only for lines whose activity field is "1" - so this
short line is silently skipped and the import completes with no rows. -/
theorem short_line_fatal_cex :
    shortInactive.length < 8
    ∧ (convert_to_sqlite
        (some [SrcLine.ok ["hdr"], SrcLine.ok shortInactive])
        DestFile.absent).error = none
    ∧ (convert_to_sqlite
        (some [SrcLine.ok ["hdr"], SrcLine.ok shortInactive])
        DestFile.absent).storeRows = [] := by
  decide

/-- C5 amended: a data line raises exactly when it has fewer than 3
fields, or its field at index 2 is "1" and it has fewer than 8 fields;
data lines with 3 to 7 fields and any other activity value are silently
skipped; when a line does raise, the loop stops at that line with the
error and no per-row recovery. -/
theorem malformed_line_fatal_iff (bs : Nat) (st : LoopState) (row : Row)
    (rest : List SrcLine) :
    ((∃ e, processLine bs st row = Except.error e)
      ↔ (row.length < 3 ∨ (row[2]? = some "1" ∧ row.length < 8)))
    ∧ ∀ e, processLine bs st row = Except.error e →
        runLoop bs st (SrcLine.ok row :: rest) = (st, some e) := by
  refine ⟨processLine_error_iff bs st row, ?_⟩
  intro e he
  simp [runLoop, he]

theorem malformed_line_fatal_iff_witness :
    runLoop BATCH_SIZE initState [SrcLine.ok shortBad]
      = (initState, some (RunError.indexError 2)) :=
  (malformed_line_fatal_iff BATCH_SIZE initState shortBad []).2
    (RunError.indexError 2) (by rfl)

/-- C6: for any positive batch threshold, a run that completes persists
exactly the accepted projected rows - the final partial batch is flushed
after the stream is exhausted - so the persisted rows do not depend on
the threshold; the script's fixed threshold 10000 is one instance. -/
theorem batching_transparent (bs : Nat) (lines : List SrcLine)
    (d0 : DestFile) (_hbs : 0 < bs)
    (h : (convertWith bs (some lines) d0).error = none) :
    (convertWith bs (some lines) d0).storeRows
      = lines.tail.filterMap acceptedRow :=
  (convertWith_ok_spec bs lines d0 h).1

theorem batching_transparent_witness :
    0 < 2
    ∧ (convertWith 2 (some wLinesB) DestFile.absent).error = none
    ∧ (convertWith 2 (some wLinesB) DestFile.absent).storeRows
        = wLinesB.tail.filterMap acceptedRow :=
  ⟨by decide, by decide,
   batching_transparent 2 wLinesB DestFile.absent (by decide) (by decide)⟩

/-- C7: when the source exists, the destination after the run depends
only on the source content - the run first deletes whatever was at the
destination path (absent, an unrelated file, or a previous store) and
rebuilds from scratch - so re-running the import on its own output
yields the same store, with no residue from the prior destination; the
result at the destination is always a store holding the new schema. -/
theorem rebuild_independent_of_dest (lines : List SrcLine)
    (d1 d2 : DestFile) :
    (convert_to_sqlite (some lines) d1).dest
        = (convert_to_sqlite (some lines) d2).dest
    ∧ (convert_to_sqlite (some lines)
          ((convert_to_sqlite (some lines) d1).dest)).dest
        = (convert_to_sqlite (some lines) d1).dest
    ∧ ∃ s : Store, (convert_to_sqlite (some lines) d1).dest
        = DestFile.store s := by
  have hindep : (convert_to_sqlite (some lines) d1).dest
      = (convert_to_sqlite (some lines) d2).dest := by
    cases lines with
    | nil => rfl
    | cons hd tl =>
      cases hd with
      | readError => rfl
      | ok row => rfl
  have hidem : (convert_to_sqlite (some lines)
        ((convert_to_sqlite (some lines) d1).dest)).dest
      = (convert_to_sqlite (some lines) d1).dest := by
    cases lines with
    | nil => rfl
    | cons hd tl =>
      cases hd with
      | readError => rfl
      | ok row => rfl
  have hsome : ∃ s : Store,
      (convert_to_sqlite (some lines) d1).dest = DestFile.store s := by
    cases lines with
    | nil => exact ⟨emptyStore, rfl⟩
    | cons hd tl =>
      cases hd with
      | readError => exact ⟨emptyStore, rfl⟩
      | ok row =>
        rcases hrl : runLoop BATCH_SIZE initState tl with ⟨st, oe⟩
        cases oe with
        | some e =>
          cases hdup : hasDupId st.pendingInserts with
          | true =>
            exact ⟨emptyStore,
              by simp [convert_to_sqlite, convertWith, hrl, hdup]⟩
          | false =>
            exact ⟨emptyStore,
              by simp [convert_to_sqlite, convertWith, hrl, hdup]⟩
        | none =>
          cases hdup : hasDupId (st.pendingInserts ++ st.batch) with
          | true =>
            exact ⟨emptyStore,
              by simp [convert_to_sqlite, convertWith, hrl, hdup]⟩
          | false =>
            exact ⟨⟨st.pendingInserts ++ st.batch⟩,
              by simp [convert_to_sqlite, convertWith, hrl, hdup]⟩
  exact ⟨hindep, hidem, hsome⟩

/-- C8 counterexample: with batch threshold 1, a batch holding one
projected row is flushed to the store before a read failure aborts the
run, yet the destination holds no rows afterwards: the executemany
INSERTs ran inside the single implicit transaction that only the final
commit call makes durable, and an aborted run never reaches it. -/
theorem flushed_batch_persisted_cex :
    (convertWith 1 (some wBadTail) DestFile.absent).error
        = some RunError.ioRead
    ∧ (convertWith 1 (some wBadTail) DestFile.absent).executedInserts ≠ []
    ∧ (convertWith 1 (some wBadTail) DestFile.absent).storeRows = [] := by
  decide

/-- C8 amended: when a read failure (or any mid-stream error) aborts the
run, the import stops at that line; the batches flushed before the
failure were executed but never committed, because the single commit
comes only after the loop, so the destination is left as a schema-only
store with none of the flushed rows, and the connection is not closed. -/
theorem aborted_run_schema_only (bs : Nat) (lines : List SrcLine)
    (d0 : DestFile)
    (h : (convertWith bs (some lines) d0).error ≠ none) :
    (convertWith bs (some lines) d0).dest = DestFile.store emptyStore
    ∧ (convertWith bs (some lines) d0).storeRows = []
    ∧ (convertWith bs (some lines) d0).connClosed = false := by
  cases lines with
  | nil => exact ⟨rfl, rfl, rfl⟩
  | cons hd tl =>
    cases hd with
    | readError => exact ⟨rfl, rfl, rfl⟩
    | ok row =>
      rcases hrl : runLoop bs initState tl with ⟨st, oe⟩
      cases oe with
      | none =>
        cases hdup : hasDupId (st.pendingInserts ++ st.batch) with
        | false => exact absurd (by simp [convertWith, hrl, hdup]) h
        | true =>
          refine ⟨?_, ?_, ?_⟩ <;>
            simp [convertWith, hrl, hdup, RunResult.storeRows, emptyStore]
      | some e =>
        cases hdup : hasDupId st.pendingInserts with
        | true =>
          refine ⟨?_, ?_, ?_⟩ <;>
            simp [convertWith, hrl, hdup, RunResult.storeRows, emptyStore]
        | false =>
          refine ⟨?_, ?_, ?_⟩ <;>
            simp [convertWith, hrl, hdup, RunResult.storeRows, emptyStore]

theorem aborted_run_schema_only_witness :
    (convertWith 1 (some wBadTail) DestFile.absent).dest
        = DestFile.store emptyStore
    ∧ (convertWith 1 (some wBadTail) DestFile.absent).storeRows = []
    ∧ (convertWith 1 (some wBadTail) DestFile.absent).connClosed = false :=
  aborted_run_schema_only 1 wBadTail DestFile.absent (by decide)

/-- C9 counterexample: on a run that fails at a malformed data line (an
empty line), the store connection was opened but is never closed - the
script has no try/finally around it - so not every exit path releases
every acquired resource. -/
theorem resources_released_cex :
    (convert_to_sqlite (some [SrcLine.ok ["hdr"], SrcLine.ok []])
        DestFile.absent).error = some (RunError.indexError 2)
    ∧ (convert_to_sqlite (some [SrcLine.ok ["hdr"], SrcLine.ok []])
        DestFile.absent).connOpened = true
    ∧ (convert_to_sqlite (some [SrcLine.ok ["hdr"], SrcLine.ok []])
        DestFile.absent).connClosed = false := by
  decide

/-- C9 amended: the missing-source early return acquires no resources;
every run that gets past that check opens both the source handle and the
store connection, and the with-block closes the source handle on the
success and failure paths alike; the store connection, however, is
closed exactly on the paths that complete without error, and stays open
when the run aborts mid-stream. -/
theorem resource_release (lines : List SrcLine) (d0 : DestFile) :
    (convert_to_sqlite none d0).fileOpened = false
    ∧ (convert_to_sqlite none d0).connOpened = false
    ∧ (convert_to_sqlite (some lines) d0).fileOpened = true
    ∧ (convert_to_sqlite (some lines) d0).fileClosed = true
    ∧ (convert_to_sqlite (some lines) d0).connOpened = true
    ∧ ((convert_to_sqlite (some lines) d0).error = none
        → (convert_to_sqlite (some lines) d0).connClosed = true)
    ∧ ((convert_to_sqlite (some lines) d0).error ≠ none
        → (convert_to_sqlite (some lines) d0).connClosed = false) := by
  refine ⟨rfl, rfl, ?_⟩
  cases lines with
  | nil =>
    refine ⟨rfl, rfl, rfl, ?_, ?_⟩
    · intro h; exact absurd h (by simp [convert_to_sqlite, convertWith])
    · intro h; rfl
  | cons hd tl =>
    cases hd with
    | readError =>
      refine ⟨rfl, rfl, rfl, ?_, ?_⟩
      · intro h; exact absurd h (by simp [convert_to_sqlite, convertWith])
      · intro h; rfl
    | ok row =>
      rcases hrl : runLoop BATCH_SIZE initState tl with ⟨st, oe⟩
      cases oe with
      | none =>
        cases hdup : hasDupId (st.pendingInserts ++ st.batch) with
        | false =>
          refine ⟨?_, ?_, ?_, ?_, ?_⟩ <;>
            simp [convert_to_sqlite, convertWith, hrl, hdup]
        | true =>
          refine ⟨?_, ?_, ?_, ?_, ?_⟩ <;>
            simp [convert_to_sqlite, convertWith, hrl, hdup]
      | some e =>
        cases hdup : hasDupId st.pendingInserts with
        | false =>
          refine ⟨?_, ?_, ?_, ?_, ?_⟩ <;>
            simp [convert_to_sqlite, convertWith, hrl, hdup]
        | true =>
          refine ⟨?_, ?_, ?_, ?_, ?_⟩ <;>
            simp [convert_to_sqlite, convertWith, hrl, hdup]

theorem resource_release_witness :
    (convert_to_sqlite (some wLinesA) DestFile.absent).connClosed = true :=
  (resource_release wLinesA DestFile.absent).2.2.2.2.2.1 (by decide)
